import Mathlib

/-!
Shallow embedding of `app.py` (withdrawal management web application).

Modelling conventions, chosen once and used throughout:
* SQL `DateTime` instants are modelled as `Nat` (comparable timestamps);
  `datetime.utcnow()` is passed in as an explicit `now : Nat` argument.
* SQL `Float` columns are modelled as `Rat`.
* Nullable columns are `Option _`; a fresh ORM object has `none` in every
  column that Python leaves at `None`.
* Python's `dateutil.parser.parse` and `float()` are external library
  primitives; they are passed in as function arguments
  (`pd : String → Option Nat`, `pf : String → Option Rat`) where `none`
  models the exception branch swallowed by the source's `try/except`.
* A database session's `commit` is modelled by returning the new `DB`
  value: all writes of one handler take effect in that single returned
  state, which is the pure-functional rendering of a one-transaction
  commit.
* SQLAlchemy's `LIKE '%q%'` filter is modelled by `sqlLike`, which
  renders the semantics of the default SQLite backend: `%` and `_`
  inside the query act as wildcards, and plain characters compare after
  ASCII lower-casing (SQLite's LIKE is case-insensitive for A-Z).
  `strOccurs` separately renders the spec's literal-substring reading
  of the filter, to be compared against `sqlLike`. `ORDER BY` clauses
  are not modelled where no claim depends on row order.
-/

namespace WithdrawalApp

/-- Python `a or b` specialised to strings read from a form/CSV cell:
`None` and `""` are falsy, any other string is returned unchanged. -/
def pyOrS (a : Option String) (b : String) : String :=
  match a with
  | none => b
  | some s => if s = "" then b else s

/-- Drop leading whitespace characters. -/
def stripL : List Char → List Char
  | [] => []
  | c :: cs => if c.isWhitespace then stripL cs else c :: cs

/-- Python `str.strip()`: whitespace removed from both ends
(kernel-reducible replacement for `String.trim`). -/
def pyStrip (s : String) : String :=
  String.mk ((stripL ((stripL s.toList).reverse)).reverse)

/-- Python `str.lower()` (kernel-reducible replacement for
`String.toLower`). -/
def pyLower (s : String) : String :=
  String.mk (s.toList.map Char.toLower)

/-- Python `s.replace(",", "")`: every comma removed. -/
def removeCommas (s : String) : String :=
  String.mk (s.toList.filter (fun c => c ≠ ','))

/-- Occurrence of `needle` as a contiguous literal substring of `hay`.
This is the spec's reading of the free-text filter ("q occurs as a
substring"), kept alongside the engine-faithful `sqlLike` so the two
can be compared. -/
def strOccursL (needle : List Char) : List Char → Bool
  | [] => needle.isEmpty
  | c :: rest => needle.isPrefixOf (c :: rest) || strOccursL needle rest

/-- String-level wrapper for `strOccursL`. -/
def strOccurs (needle hay : String) : Bool :=
  strOccursL needle.toList hay.toList

/-- All suffixes of a character list, longest first. -/
def suffixes : List Char → List (List Char)
  | [] => [[]]
  | c :: cs => (c :: cs) :: suffixes cs

/-- SQL LIKE pattern matching as the application's default SQLite
backend implements it: `%` matches any character sequence (the `%`
case tries every suffix of the remaining string), `_` matches exactly
one character, and plain characters compare after ASCII lower-casing
(SQLite's default LIKE is case-insensitive for A-Z; `Char.toLower`
folds exactly the ASCII range). -/
def likeMatchL : List Char → List Char → Bool
  | [], cs => cs.isEmpty
  | p :: ps, cs =>
    if p = '%' then (suffixes cs).any (fun cs2 => likeMatchL ps cs2)
    else
      match cs with
      | [] => false
      | c :: cs2 =>
        (if p = '_' then true else p.toLower == c.toLower) &&
          likeMatchL ps cs2

/-- String-level wrapper for `likeMatchL`. -/
def sqlLike (pat s : String) : Bool :=
  likeMatchL pat.toList s.toList

/-- Maximal runs of digit characters, accumulator style
(the semantics of `re.findall(r"\d+", s)`). -/
def digitRunsAux : List Char → List Char → List (List Char)
  | [], acc => if acc.isEmpty then [] else [acc.reverse]
  | c :: rest, acc =>
    if c.isDigit then digitRunsAux rest (c :: acc)
    else if acc.isEmpty then digitRunsAux rest []
    else acc.reverse :: digitRunsAux rest []

/-- Numeric value of a digit string (Python `int` on a `\d+` match). -/
def natOfDigits (ds : List Char) : Nat :=
  ds.foldl (fun n c => n * 10 + (c.toNat - '0'.toNat)) 0

/-- `[int(x) for x in re.findall(r"\d+", ids)]` from `bulk_delete`
(app.py line 300). -/
def parseIds (ids : String) : List Nat :=
  (digitRunsAux ids.toList []).map natOfDigits

/-- Source `parse_float` (app.py lines 157-163): `None`/blank gives
`None`, otherwise commas are removed and the string is handed to
`float()`, whose failure (modelled by `pf` returning `none`) also gives
`None`. -/
def parse_float (pf : String → Option Rat) (x : Option String) : Option Rat :=
  match x with
  | none => none
  | some s => if pyStrip s = "" then none else pf (removeCommas s)

/-- Source `parse_dt` (app.py lines 165-170): falsy input (`None` or
`""`) gives `None`, otherwise the string is handed to
`dateutil.parser.parse`, whose failure (modelled by `pd` returning
`none`) also gives `None`. -/
def parse_dt (pd : String → Option Nat) (x : Option String) : Option Nat :=
  match x with
  | none => none
  | some s => if s = "" then none else pd s

/-- Python `int()` applied to a float value: truncation toward zero. -/
def pyInt (q : Rat) : Int :=
  if q < 0 then ⌈q⌉ else ⌊q⌋

/-- Row of the `withdrawals` table (app.py lines 67-87). -/
structure Withdrawal where
  id : Nat
  company : Option String
  no : Option String
  applied_at : Option Nat
  bank_name : Option String
  branch_name : Option String
  account_type : Option String
  account_number : Option String
  account_holder : Option String
  amount : Option Rat
  payout_account : Option String
  fee : Option Rat
  status : Option String
  owner : Option String
  memo : Option String
  created_at : Option Nat
  updated_at : Option Nat
  last_changed_by : Option String
  last_changed_at : Option Nat
deriving DecidableEq

/-- Row of the `archived_withdrawals` table (app.py lines 89-113). -/
structure ArchivedWithdrawal where
  original_id : Nat
  company : Option String
  no : Option String
  applied_at : Option Nat
  bank_name : Option String
  branch_name : Option String
  account_type : Option String
  account_number : Option String
  account_holder : Option String
  amount : Option Rat
  payout_account : Option String
  fee : Option Rat
  status : Option String
  owner : Option String
  memo : Option String
  created_at : Option Nat
  updated_at : Option Nat
  last_changed_by : Option String
  last_changed_at : Option Nat
  deleted_at : Nat
  deleted_by : String
deriving DecidableEq

/-- Row of the `audit_logs` table (app.py lines 115-122). -/
structure AuditLog where
  ts : Nat
  user_email : String
  action : String
  target : String
  detail : Option String
deriving DecidableEq

/-- Row of the `users` table (app.py lines 40-47). -/
structure User where
  id : Nat
  email : String
  name : String
  role : String
  password_hash : String
  created_at : Nat
deriving DecidableEq

/-- The dictionary stored in `session["user"]` at login
(app.py line 182). -/
structure SessionUser where
  email : String
  name : String
  role : String
deriving DecidableEq

/-- The whole database state. -/
structure DB where
  withdrawals : List Withdrawal
  archived : List ArchivedWithdrawal
  audit_logs : List AuditLog
  users : List User
deriving DecidableEq

/-- Outcome of a decorated route: the login decorator redirects
anonymous callers, the role decorator returns the 403 page, and
otherwise the handler body runs and produces `a`. -/
inductive RouteResult (α : Type) where
  | redirectLogin : RouteResult α
  | forbidden : RouteResult α
  | done : α → RouteResult α
deriving DecidableEq

/-- Source decorator `login_required` (app.py lines 132-138): with no
session user the request is redirected to the login page and the
database is untouched; otherwise the handler body runs. -/
def login_required {α : Type} (sess : Option SessionUser)
    (body : SessionUser → DB → DB × α) (db : DB) : DB × RouteResult α :=
  match sess with
  | none => (db, RouteResult.redirectLogin)
  | some u =>
    let r := body u db
    (r.1, RouteResult.done r.2)

/-- Source decorator `require_role` (app.py lines 140-151) as used in the
application, i.e. stacked under `login_required` (both check the session,
so the anonymous case redirects either way): a missing session redirects,
a session whose role fails the check gets the 403 response with the
database untouched, and otherwise the handler body runs. -/
def require_role {α : Type} (role_name : String) (sess : Option SessionUser)
    (body : SessionUser → DB → DB × α) (db : DB) : DB × RouteResult α :=
  match sess with
  | none => (db, RouteResult.redirectLogin)
  | some u =>
    if role_name = "admin" ∧ u.role ≠ "admin" then (db, RouteResult.forbidden)
    else
      let r := body u db
      (r.1, RouteResult.done r.2)

/-- JSON body returned by `/toggle_status`: `{"ok": false}` carries no
status key (`status := none`), success carries the new status. -/
structure ToggleResp where
  ok : Bool
  status : Option String
deriving DecidableEq

/-- Handler body of `/toggle_status` (app.py lines 272-292): look the
row up by primary key; absent rows answer `ok = false` with nothing
written; otherwise the row's `status` is set to the request's `next`
string verbatim, the change is stamped with the caller and `now`, an
audit row is appended, and everything is committed. Rows are keyed by
the primary key `id`, so the update maps over the table replacing the
row with that id. -/
def toggle_status_body (u : SessionUser) (id_ : Nat) (next_ : String)
    (now : Nat) (db : DB) : DB × ToggleResp :=
  match db.withdrawals.find? (fun w => w.id == id_) with
  | none => (db, { ok := false, status := none })
  | some _ =>
    let db2 : DB :=
      { db with
        withdrawals := db.withdrawals.map (fun w =>
          if w.id == id_ then
            { w with
              status := some next_
              last_changed_by := some u.email
              last_changed_at := some now
              updated_at := some now }
          else w)
        audit_logs := db.audit_logs ++
          [{ ts := now, user_email := u.email, action := "status_update",
             target := "withdrawal:" ++ toString id_,
             detail := some ("to=" ++ next_) }] }
    (db2, { ok := true, status := some next_ })

/-- The `/toggle_status` route: `login_required` around the body (no
admin requirement in the source). -/
def toggle_status_route (sess : Option SessionUser) (id_ : Nat)
    (next_ : String) (now : Nat) (db : DB) : DB × RouteResult ToggleResp :=
  login_required sess (fun u d => toggle_status_body u id_ next_ now d) db

/-- JSON body returned by `/bulk_delete`. -/
structure BulkResp where
  ok : Bool
  deleted : Option Nat
  msg : Option String
deriving DecidableEq

/-- The archive row built from withdrawal `r` inside `bulk_delete`
(app.py lines 307-318): every data column is copied, `deleted_at` is
`now` and `deleted_by` is the caller's email. -/
def archiveOf (r : Withdrawal) (now : Nat) (by_email : String) :
    ArchivedWithdrawal :=
  { original_id := r.id
    company := r.company, no := r.no, applied_at := r.applied_at
    bank_name := r.bank_name, branch_name := r.branch_name
    account_type := r.account_type, account_number := r.account_number
    account_holder := r.account_holder, amount := r.amount
    payout_account := r.payout_account, fee := r.fee
    status := r.status, owner := r.owner, memo := r.memo
    created_at := r.created_at, updated_at := r.updated_at
    last_changed_by := r.last_changed_by
    last_changed_at := r.last_changed_at
    deleted_at := now, deleted_by := by_email }

/-- Handler body of `/bulk_delete` (app.py lines 298-326): the digit
runs of the `ids` form field are parsed; an empty list answers
`ok = false` with nothing written; otherwise every withdrawal whose id
is in the list is copied to the archive and removed, one audit row is
appended, and the whole batch is committed at once. The reported
`deleted` count is the length of the parsed id list. -/
def bulk_delete_body (u : SessionUser) (ids : String) (now : Nat)
    (db : DB) : DB × BulkResp :=
  let id_list := parseIds ids
  if id_list.isEmpty then
    (db, { ok := false, deleted := none, msg := some "no ids" })
  else
    let rows := db.withdrawals.filter (fun w => id_list.contains w.id)
    let db2 : DB :=
      { db with
        withdrawals := db.withdrawals.filter (fun w => !id_list.contains w.id)
        archived := db.archived ++ rows.map (fun r => archiveOf r now u.email)
        audit_logs := db.audit_logs ++
          [{ ts := now, user_email := u.email, action := "delete",
             target := "withdrawal:" ++ toString id_list.length,
             detail := some ("ids=" ++ toString id_list) }] }
    (db2, { ok := true, deleted := some id_list.length, msg := none })

/-- The `/bulk_delete` route: `login_required` and
`require_role("admin")` around the body. -/
def bulk_delete_route (sess : Option SessionUser) (ids : String)
    (now : Nat) (db : DB) : DB × RouteResult BulkResp :=
  require_role "admin" sess (fun u d => bulk_delete_body u ids now d) db

/-- One `csv.DictReader` row: header name to cell value, where a
missing cell (short row) is `none`; `rowGet` is Python `row.get(k)`,
which is `None` both for a missing key and for a `None` cell. -/
abbrev Row := List (String × Option String)

/-- Python `row.get(k)` on a `DictReader` row. -/
def rowGet (row : Row) (k : String) : Option String :=
  match row.lookup k with
  | some v => v
  | none => none

/-- The blank-row test of the upload loop (app.py line 338):
`all(not str(v or "").strip() for v in row.values())`. -/
def blankRow (row : Row) : Bool :=
  row.all (fun kv => pyStrip (kv.2.getD "") = "")

/-- Replace the first element satisfying `p` by its image under `f`
(the in-place mutation of the one ORM object returned by
`query(...).filter(...).first()`). -/
def replaceFirst {α : Type} (p : α → Bool) (f : α → α) : List α → List α
  | [] => []
  | x :: xs => if p x then f x :: xs else x :: replaceFirst p f xs

/-- A freshly constructed `Withdrawal(no=no_)` ORM object: `no` is the
given string, `created_at`/`updated_at` take their `utcnow` column
defaults, every other column is `None`; `nid` is the autoincrement
primary key assigned at flush. -/
def newW (nid : Nat) (no_ : String) (now : Nat) : Withdrawal :=
  { id := nid, company := none, no := some no_, applied_at := none
    bank_name := none, branch_name := none, account_type := none
    account_number := none, account_holder := none, amount := none
    payout_account := none, fee := none, status := none, owner := none
    memo := none, created_at := some now, updated_at := some now
    last_changed_by := none, last_changed_at := none }

/-- The field assignments of the upload loop (app.py lines 341-357)
applied to the target object `base` (the existing row found by `no`, or
a fresh object): header fallbacks `会社`→`クライアント` and
`担当者`→`担当` via Python `or`, `.strip()` on the text columns,
`parse_float` on `金額`/`手数料`, `parse_dt` on `申請日時`, and
`updated_at := now`.  `no`, `memo`, `created_at` and the
`last_changed_*` columns are not assigned by the loop. -/
def applyRow (pd : String → Option Nat) (pf : String → Option Rat)
    (now : Nat) (row : Row) (base : Withdrawal) : Withdrawal :=
  { base with
    company := some (pyStrip (pyOrS (rowGet row "会社") (pyOrS (rowGet row "クライアント") "")))
    applied_at := parse_dt pd (rowGet row "申請日時")
    bank_name := some (pyStrip (pyOrS (rowGet row "銀行名") ""))
    branch_name := some (pyStrip (pyOrS (rowGet row "支店名") ""))
    account_type := some (pyStrip (pyOrS (rowGet row "口座種別") ""))
    account_number := some (pyStrip (pyOrS (rowGet row "口座番号") ""))
    account_holder := some (pyStrip (pyOrS (rowGet row "口座名義") ""))
    amount := parse_float pf (rowGet row "金額")
    payout_account := some (pyStrip (pyOrS (rowGet row "出金口座") ""))
    fee := parse_float pf (rowGet row "手数料")
    status := some (pyStrip (pyOrS (rowGet row "ステータス") ""))
    owner := some (pyStrip (pyOrS (rowGet row "担当者") (pyOrS (rowGet row "担当") "")))
    updated_at := some now }

/-- The record-number key of a row, `(row.get("No.") or row.get("No")
or "").strip()`. -/
def rowNo (row : Row) : String :=
  pyStrip (pyOrS (rowGet row "No.") (pyOrS (rowGet row "No") ""))

/-- One iteration of the upload loop over the withdrawals table
(app.py lines 337-358): blank rows are skipped; otherwise the first row
whose `no` equals the CSV row's number is updated in place, and if none
exists a fresh object is appended with the next autoincrement id.
(SQLAlchemy autoflushes pending inserts before each query, so rows
added earlier in the same upload are visible here.) -/
def processRow (pd : String → Option Nat) (pf : String → Option Rat)
    (now : Nat) (st : List Withdrawal × Nat) (row : Row) :
    List Withdrawal × Nat :=
  if blankRow row then st
  else
    let no_ := rowNo row
    match st.1.find? (fun w => w.no == some no_) with
    | some w0 =>
      (replaceFirst (fun w => w.no == some no_) (fun _ => applyRow pd pf now row w0) st.1,
       st.2)
    | none =>
      (st.1 ++ [applyRow pd pf now row (newW st.2 no_ now)], st.2 + 1)

/-- Handler body of `/upload` (app.py lines 331-364): fold the CSV rows
over the withdrawals table, append one audit row, commit, and redirect
to the index page. `nid` is the next autoincrement id of the table. -/
def upload_body (pd : String → Option Nat) (pf : String → Option Rat)
    (u : SessionUser) (rows : List Row) (now nid : Nat) (db : DB) :
    DB × String :=
  let folded := rows.foldl (processRow pd pf now) (db.withdrawals, nid)
  ({ db with
     withdrawals := folded.1
     audit_logs := db.audit_logs ++
       [{ ts := now, user_email := u.email, action := "upload",
          target := "csv", detail := none }] },
   "index")

/-- The `/upload` route: in the source it is guarded by
`login_required` only — there is no `require_role("admin")` decorator
on it (app.py lines 329-331). -/
def upload_route (pd : String → Option Nat) (pf : String → Option Rat)
    (sess : Option SessionUser) (rows : List Row) (now nid : Nat)
    (db : DB) : DB × RouteResult String :=
  login_required sess (fun u d => upload_body pd pf u rows now nid d) db

/-- One CSV line written by `/export` for withdrawal `r` (app.py lines
376-385): empty string for nulls, `strftime` (modelled by `fmt`) for
the date, `int()` truncation for the money columns. -/
def export_row (fmt : Nat → String) (r : Withdrawal) : List String :=
  [r.company.getD "", r.no.getD "",
   (match r.applied_at with | some t => fmt t | none => ""),
   r.bank_name.getD "", r.branch_name.getD "", r.account_type.getD "",
   r.account_number.getD "", r.account_holder.getD "",
   (match r.amount with | some a => toString (pyInt a) | none => ""),
   r.payout_account.getD "",
   (match r.fee with | some f => toString (pyInt f) | none => ""),
   r.status.getD "", r.owner.getD ""]

/-- Sort key for `ORDER BY applied_at DESC`: SQL NULLs sort smallest,
so `none` maps below every timestamp. -/
def appliedKey (w : Withdrawal) : Nat :=
  match w.applied_at with
  | none => 0
  | some t => t + 1

/-- The header line of the exported CSV (app.py line 374). -/
def exportHeader : List String :=
  ["会社", "No.", "申請日時", "銀行名", "支店名", "口座種別", "口座番号",
   "口座名義", "金額", "出金口座", "手数料", "ステータス", "担当者"]

/-- Handler body of `/export` (app.py lines 368-390): header plus one
line per withdrawal, ordered by `applied_at` descending; the database
is not written. -/
def export_body (fmt : Nat → String) (_u : SessionUser) (db : DB) :
    DB × List (List String) :=
  (db, exportHeader ::
    (db.withdrawals.mergeSort (fun a b => appliedKey b ≤ appliedKey a)).map
      (export_row fmt))

/-- The `/export` route: guarded by `login_required` only — there is no
`require_role("admin")` decorator on it (app.py lines 366-368). -/
def export_route (fmt : Nat → String) (sess : Option SessionUser)
    (db : DB) : DB × RouteResult (List (List String)) :=
  login_required sess (fun u d => export_body fmt u d) db

/-- Source `User.create` (app.py lines 49-59): email lowered and
stripped, name stripped (`(name or "").strip()` on an always-present
string form field), password hashed (`generate_password_hash` modelled
by `hash`), and the row committed with the next autoincrement id. -/
def User.create (hash : String → String) (now nid : Nat)
    (users : List User) (email pw name role : String) : List User :=
  users ++ [{ id := nid, email := pyStrip (pyLower email), name := pyStrip name,
              role := role, password_hash := hash pw, created_at := now }]

/-- Handler body of `/users/create` (app.py lines 407-419): the handler
lowers and strips the email, calls `User.create`, appends an audit row
and redirects to the users page. -/
def users_create_body (hash : String → String) (u : SessionUser)
    (email name pw role : String) (now nid : Nat) (db : DB) :
    DB × String :=
  let em := pyStrip (pyLower email)
  ({ db with
     users := User.create hash now nid db.users em pw name role
     audit_logs := db.audit_logs ++
       [{ ts := now, user_email := u.email, action := "create_user",
          target := em, detail := none }] },
   "users_page")

/-- The `/users/create` route: `login_required` and
`require_role("admin")`. -/
def users_create_route (hash : String → String)
    (sess : Option SessionUser) (email name pw role : String)
    (now nid : Nat) (db : DB) : DB × RouteResult String :=
  require_role "admin" sess
    (fun u d => users_create_body hash u email name pw role now nid d) db

/-- Handler body of `/users/role` (app.py lines 424-436): look the user
up by primary key; absent ids just redirect; otherwise the role is
replaced, an audit row appended, and the change committed. -/
def users_role_body (u : SessionUser) (id_ : Nat) (role : String)
    (now : Nat) (db : DB) : DB × String :=
  match db.users.find? (fun x => x.id == id_) with
  | none => (db, "users_page")
  | some t =>
    ({ db with
       users := db.users.map (fun x =>
         if x.id == id_ then { x with role := role } else x)
       audit_logs := db.audit_logs ++
         [{ ts := now, user_email := u.email, action := "role_change",
            target := t.email, detail := some ("to=" ++ role) }] },
     "users_page")

/-- The `/users/role` route: `login_required` and
`require_role("admin")`. -/
def users_role_route (sess : Option SessionUser) (id_ : Nat)
    (role : String) (now : Nat) (db : DB) : DB × RouteResult String :=
  require_role "admin" sess (fun u d => users_role_body u id_ role now d) db

/-- Handler body of `/users/resetpw` (app.py lines 441-453): look the
user up by primary key; absent ids just redirect; otherwise the
password hash is replaced, an audit row appended, and the change
committed. -/
def users_resetpw_body (hash : String → String) (u : SessionUser)
    (id_ : Nat) (pw : String) (now : Nat) (db : DB) : DB × String :=
  match db.users.find? (fun x => x.id == id_) with
  | none => (db, "users_page")
  | some t =>
    ({ db with
       users := db.users.map (fun x =>
         if x.id == id_ then { x with password_hash := hash pw } else x)
       audit_logs := db.audit_logs ++
         [{ ts := now, user_email := u.email, action := "reset_pw",
            target := t.email, detail := none }] },
     "users_page")

/-- The `/users/resetpw` route: `login_required` and
`require_role("admin")`. -/
def users_resetpw_route (hash : String → String)
    (sess : Option SessionUser) (id_ : Nat) (pw : String) (now : Nat)
    (db : DB) : DB × RouteResult String :=
  require_role "admin" sess
    (fun u d => users_resetpw_body hash u id_ pw now d) db

/-- SQL `column LIKE '%q%'` on a nullable text column: NULL never
matches, otherwise the LIKE pattern built from the raw query (the
source interpolates `q` unescaped into `f"%{q}%"`). -/
def likeOpt (q : String) (v : Option String) : Bool :=
  match v with
  | none => false
  | some s => sqlLike ("%" ++ q ++ "%") s

/-- The seven-column free-text disjunction of the index view
(app.py lines 226-235). -/
def matchesQ (q : String) (w : Withdrawal) : Bool :=
  likeOpt q w.company || likeOpt q w.no || likeOpt q w.bank_name ||
  likeOpt q w.branch_name || likeOpt q w.account_holder ||
  likeOpt q w.payout_account || likeOpt q w.owner

/-- Modelled from the spec's words for comparison, not from the code:
the free-text filter read as literal substring occurrence on a
nullable column (NULL never matches). -/
def substrOpt (q : String) (v : Option String) : Bool :=
  match v with
  | none => false
  | some s => strOccurs q s

/-- Modelled from the spec's words for comparison, not from the code:
"q occurs as a substring of at least one of company, no, bank_name,
branch_name, account_holder, payout_account or owner". -/
def matchesQSubstr (q : String) (w : Withdrawal) : Bool :=
  substrOpt q w.company || substrOpt q w.no || substrOpt q w.bank_name ||
  substrOpt q w.branch_name || substrOpt q w.account_holder ||
  substrOpt q w.payout_account || substrOpt q w.owner

/-- The conjunction of index filters (app.py lines 225-243): each
filter is applied only when its argument is non-empty; the status and
owner filters are SQL equality (NULL never matches) and the date range
is `applied_at >= start` and `applied_at < end` (NULL never matches). -/
def index_pred (q status owner : String) (start end_ : Option Nat)
    (w : Withdrawal) : Bool :=
  (q == "" || matchesQ q w) &&
  (status == "" || w.status == some status) &&
  (owner == "" || w.owner == some owner) &&
  (match start with
   | none => true
   | some s => match w.applied_at with
     | none => false
     | some a => decide (s ≤ a)) &&
  (match end_ with
   | none => true
   | some e => match w.applied_at with
     | none => false
     | some a => decide (a < e))

/-- The rows produced by the index view's query (app.py lines 210-248):
the request arguments are normalised exactly as in the handler
(`q` stripped after the falsy-default, `status`/`owner` defaulted to
`""`, the dates put through `parse_dt`) and the table is filtered.
The subsequent `ORDER BY` only permutes the rows and is not modelled;
the claims about the view concern which rows are kept. -/
def index_rows (pd : String → Option Nat)
    (qArg statusArg ownerArg startArg endArg : Option String)
    (db : DB) : List Withdrawal :=
  db.withdrawals.filter
    (index_pred (pyStrip (pyOrS qArg "")) (pyOrS statusArg "")
      (pyOrS ownerArg "") (parse_dt pd startArg) (parse_dt pd endArg))

/-- Concrete withdrawal row used by witnesses and counterexamples. -/
def wEx : Withdrawal :=
  { id := 1, company := some "ACME", no := some "A-1", applied_at := some 10
    bank_name := some "Bank", branch_name := some "Main"
    account_type := some "普通", account_number := some "123"
    account_holder := some "Taro", amount := some 100
    payout_account := some "P1", fee := some 5, status := some ""
    owner := some "Alice", memo := none, created_at := some 1
    updated_at := some 1, last_changed_by := none, last_changed_at := none }

/-- Concrete database with a single withdrawal row. -/
def dbEx : DB :=
  { withdrawals := [wEx], archived := [], audit_logs := [], users := [] }

/-- Concrete admin session. -/
def adminU : SessionUser :=
  { email := "admin@example.com", name := "Admin", role := "admin" }

/-- Concrete worker (non-admin) session. -/
def workerU : SessionUser :=
  { email := "worker@example.com", name := "Worker", role := "worker" }

/-- Splitting lemma for `replaceFirst`: when `find?` locates `x`, the
list splits around the first match and `replaceFirst` rewrites exactly
that position. -/
theorem replaceFirst_split {α : Type} (p : α → Bool) (f : α → α)
    (l : List α) (x : α) (h : l.find? p = some x) :
    ∃ l1 l2, l = l1 ++ x :: l2 ∧ (∀ y ∈ l1, p y = false) ∧
      replaceFirst p f l = l1 ++ f x :: l2 := by
  induction l with
  | nil => simp [List.find?] at h
  | cons a as ih =>
    by_cases hp : p a
    · rw [List.find?_cons_of_pos _ hp] at h
      obtain rfl : a = x := by injection h
      exact ⟨[], as, by simp, by simp, by simp [replaceFirst, hp]⟩
    · rw [List.find?_cons_of_neg _ hp] at h
      obtain ⟨l1, l2, hsplit, hmiss, hrep⟩ := ih h
      refine ⟨a :: l1, l2, by simp [hsplit], ?_, ?_⟩
      · intro y hy
        rcases List.mem_cons.mp hy with rfl | hy2
        · simpa using hp
        · exact hmiss y hy2
      · simp [replaceFirst, hp, hrep]

/-- The record touched by one non-blank upload row is in the resulting
table, its `no` column is the row's record number, and it carries the
field assignments of `applyRow`. -/
theorem processRow_touched (pd : String → Option Nat)
    (pf : String → Option Rat) (now : Nat) (st : List Withdrawal × Nat)
    (row : Row) (h : blankRow row = false) :
    ∃ base, base.no = some (rowNo row) ∧
      applyRow pd pf now row base ∈ (processRow pd pf now st row).1 := by
  unfold processRow
  rw [h]
  simp only [Bool.false_eq_true, if_false]
  cases hf : st.1.find? (fun w => w.no == some (rowNo row)) with
  | none =>
    exact ⟨newW st.2 (rowNo row) now, rfl, by simp⟩
  | some w0 =>
    have hp : (w0.no == some (rowNo row)) = true := by
      have h2 := List.find?_some hf
      simpa using h2
    obtain ⟨l1, l2, hsplit, hmiss, hrep⟩ :=
      replaceFirst_split (fun w => w.no == some (rowNo row))
        (fun _ => applyRow pd pf now row w0) st.1 w0 hf
    refine ⟨w0, by simpa using hp, ?_⟩
    simp [hrep]

/-- The stamped update applied by toggle_status to the matched row. -/
def toggledW (w : Withdrawal) (next_ email : String) (now : Nat) :
    Withdrawal :=
  { w with
    status := some next_
    last_changed_by := some email
    last_changed_at := some now
    updated_at := some now }

/-- Core fact about a toggle_status hit shared by several results: the
response reports success with the new status, and the table holds the
stamped update of the matched record. -/
theorem toggle_status_mem_updated (sess : SessionUser) (id_ : Nat)
    (next_ : String) (now : Nat) (db : DB) (w : Withdrawal)
    (hw : w ∈ db.withdrawals) (hid : w.id = id_) :
    (toggle_status_route (some sess) id_ next_ now db).2 =
      RouteResult.done { ok := true, status := some next_ } ∧
    toggledW w next_ sess.email now ∈
      (toggle_status_route (some sess) id_ next_ now db).1.withdrawals := by
  obtain ⟨w0, hw0⟩ : ∃ w0,
      db.withdrawals.find? (fun x => x.id == id_) = some w0 := by
    have hs : (db.withdrawals.find? (fun x => x.id == id_)).isSome := by
      rw [List.find?_isSome]
      exact ⟨w, hw, by simp [hid]⟩
    exact Option.isSome_iff_exists.mp hs
  constructor
  · simp [toggle_status_route, login_required, toggle_status_body, hw0]
  · simp only [toggle_status_route, login_required, toggle_status_body, hw0]
    exact List.mem_map.mpr ⟨w, hw, by simp [hid, toggledW]⟩

/-- Claim C8: for every toggle_status request whose id matches no
existing withdrawal record, the response is ok=false and the entire
database state is unchanged: no withdrawal record is modified and no
audit-log entry is added. -/
theorem c8_toggle_missing_id_unchanged (sess : SessionUser) (id_ : Nat)
    (next_ : String) (now : Nat) (db : DB)
    (h : ∀ w ∈ db.withdrawals, w.id ≠ id_) :
    toggle_status_route (some sess) id_ next_ now db =
      (db, RouteResult.done { ok := false, status := none }) := by
  have hf : db.withdrawals.find? (fun w => w.id == id_) = none := by
    rw [List.find?_eq_none]
    intro w hw
    simp [h w hw]
  simp [toggle_status_route, login_required, toggle_status_body, hf]

/-- Witness for C8 at a concrete database: id 2 matches no row of
`dbEx`, the call answers ok=false and leaves the database alone. -/
theorem c8_toggle_missing_id_unchanged_witness :
    (∀ w ∈ dbEx.withdrawals, w.id ≠ 2) ∧
    toggle_status_route (some workerU) 2 "完了" 5 dbEx =
      (dbEx, RouteResult.done { ok := false, status := none }) :=
  ⟨by decide, c8_toggle_missing_id_unchanged workerU 2 "完了" 5 dbEx (by decide)⟩

/-- Counterexample to claim C3 as stated: toggle_status does not reject
status values other than 完了 and 差し戻し — a request carrying the
string "bogus" is accepted with ok=true and that string is returned as
the new status. -/
theorem c3_counterexample_no_rejection :
    (toggle_status_route (some workerU) 1 "bogus" 5 dbEx).2 =
      RouteResult.done { ok := true, status := some "bogus" } := by
  decide

/-- Claim C3 (amended): for every toggle_status request whose id
matches an existing withdrawal record, the operation sets that record's
status to the request's next string verbatim — whatever string it is,
with no validation restricting it to 完了 or 差し戻し — sets
last_changed_by to the logged-in user's email, sets last_changed_at and
updated_at to the current time, and returns ok=true with the new
status; all other fields of the record are unchanged. -/
theorem c3_toggle_sets_status_and_stamps (sess : SessionUser) (id_ : Nat)
    (next_ : String) (now : Nat) (db : DB) (w : Withdrawal)
    (hw : w ∈ db.withdrawals) (hid : w.id = id_) :
    (toggle_status_route (some sess) id_ next_ now db).2 =
      RouteResult.done { ok := true, status := some next_ } ∧
    ∃ w2 ∈ (toggle_status_route (some sess) id_ next_ now db).1.withdrawals,
      w2.status = some next_ ∧ w2.last_changed_by = some sess.email ∧
      w2.last_changed_at = some now ∧ w2.updated_at = some now ∧
      w2.id = w.id ∧ w2.company = w.company ∧ w2.no = w.no ∧
      w2.applied_at = w.applied_at ∧ w2.bank_name = w.bank_name ∧
      w2.branch_name = w.branch_name ∧ w2.account_type = w.account_type ∧
      w2.account_number = w.account_number ∧
      w2.account_holder = w.account_holder ∧ w2.amount = w.amount ∧
      w2.payout_account = w.payout_account ∧ w2.fee = w.fee ∧
      w2.owner = w.owner ∧ w2.memo = w.memo ∧
      w2.created_at = w.created_at := by
  obtain ⟨hresp, hmem⟩ :=
    toggle_status_mem_updated sess id_ next_ now db w hw hid
  refine ⟨hresp, ?_⟩
  exact ⟨toggledW w next_ sess.email now, hmem, by simp [toggledW]⟩

/-- Witness for C3 (amended) at a concrete database. -/
theorem c3_toggle_sets_status_and_stamps_witness :
    wEx ∈ dbEx.withdrawals ∧ wEx.id = 1 ∧
    ((toggle_status_route (some workerU) 1 "完了" 5 dbEx).2 =
       RouteResult.done { ok := true, status := some "完了" } ∧
     ∃ w2 ∈ (toggle_status_route (some workerU) 1 "完了" 5 dbEx).1.withdrawals,
       w2.status = some "完了" ∧ w2.last_changed_by = some workerU.email ∧
       w2.last_changed_at = some 5 ∧ w2.updated_at = some 5 ∧
       w2.id = wEx.id ∧ w2.company = wEx.company ∧ w2.no = wEx.no ∧
       w2.applied_at = wEx.applied_at ∧ w2.bank_name = wEx.bank_name ∧
       w2.branch_name = wEx.branch_name ∧ w2.account_type = wEx.account_type ∧
       w2.account_number = wEx.account_number ∧
       w2.account_holder = wEx.account_holder ∧ w2.amount = wEx.amount ∧
       w2.payout_account = wEx.payout_account ∧ w2.fee = wEx.fee ∧
       w2.owner = wEx.owner ∧ w2.memo = wEx.memo ∧
       w2.created_at = wEx.created_at) :=
  ⟨by decide, rfl,
   c3_toggle_sets_status_and_stamps workerU 1 "完了" 5 dbEx wEx (by decide) rfl⟩

/-- Counterexample to claim C2 as stated: toggle_status stores the
string 保留, which is none of the three allowed status values, so an
operation can store a status string outside the set. -/
theorem c2_counterexample_arbitrary_status_stored :
    ((toggle_status_route (some workerU) 1 "保留" 5 dbEx).1.withdrawals.map
       (fun w => w.status)) = [some "保留"] ∧
    ¬("保留" = "" ∨ "保留" = "完了" ∨ "保留" = "差し戻し") := by
  constructor
  · decide
  · decide

/-- Claim C2 (amended): the status stored by a write is exactly what
the request supplies, with no validation: toggle_status stores the
request's next string verbatim, and CSV import stores the row's
ステータス cell (stripped, empty when absent); nothing restricts the
stored value to the three values unset, 完了, 差し戻し. -/
theorem c2_status_stored_verbatim (sess : SessionUser) (id_ : Nat)
    (next_ : String) (now : Nat) (db : DB) (pd : String → Option Nat)
    (pf : String → Option Rat) (st : List Withdrawal × Nat) (row : Row)
    (h1 : ∃ w ∈ db.withdrawals, w.id = id_) (h2 : blankRow row = false) :
    (∃ w2 ∈ (toggle_status_route (some sess) id_ next_ now db).1.withdrawals,
       w2.status = some next_) ∧
    (∃ w3 ∈ (processRow pd pf now st row).1,
       w3.status = some (pyStrip (pyOrS (rowGet row "ステータス") ""))) := by
  constructor
  · obtain ⟨w, hw, hid⟩ := h1
    obtain ⟨-, hmem⟩ := toggle_status_mem_updated sess id_ next_ now db w hw hid
    exact ⟨toggledW w next_ sess.email now, hmem, rfl⟩
  · obtain ⟨base, -, hmem⟩ := processRow_touched pd pf now st row h2
    exact ⟨applyRow pd pf now row base, hmem, rfl⟩

/-- Concrete CSV row used by witnesses: non-blank, with a 担当
fallback cell, a comma-grouped amount and a padded status. -/
def rowEx : Row :=
  [("会社", some "ACME"), ("No.", some " 7 "), ("金額", some "1,000"),
   ("担当", some "Bob"), ("ステータス", some " 完了 ")]

/-- Concrete stand-in for dateutil parsing used by witnesses. -/
def pdEx : String → Option Nat :=
  fun s => if s = "2024-01-02" then some 42 else none

/-- Concrete stand-in for Python float() used by witnesses. -/
def pfEx : String → Option Rat :=
  fun s => if s = "1000" then some 1000 else none

/-- Witness for C2 (amended) at a concrete database and CSV row. -/
theorem c2_status_stored_verbatim_witness :
    (∃ w ∈ dbEx.withdrawals, w.id = 1) ∧ blankRow rowEx = false ∧
    ((∃ w2 ∈ (toggle_status_route (some workerU) 1 "保留中" 5 dbEx).1.withdrawals,
        w2.status = some "保留中") ∧
     (∃ w3 ∈ (processRow pdEx pfEx 5 ([], 1) rowEx).1,
        w3.status = some (pyStrip (pyOrS (rowGet rowEx "ステータス") "")))) :=
  ⟨⟨wEx, by decide, rfl⟩, by decide,
   c2_status_stored_verbatim workerU 1 "保留中" 5 dbEx pdEx pfEx ([], 1) rowEx
     ⟨wEx, by decide, rfl⟩ (by decide)⟩

/-- Claim C5: every user-account management operation (create user,
change role, reset password) requires the caller's session role to be
admin; a logged-in user with any other role is rejected with a 403
response and the database — in particular the users table — is
unchanged. -/
theorem c5_user_mgmt_admin_only (hash : String → String)
    (sess : SessionUser) (email name pw role : String) (id_ : Nat)
    (now nid : Nat) (db : DB) (h : sess.role ≠ "admin") :
    users_create_route hash (some sess) email name pw role now nid db =
      (db, RouteResult.forbidden) ∧
    users_role_route (some sess) id_ role now db =
      (db, RouteResult.forbidden) ∧
    users_resetpw_route hash (some sess) id_ pw now db =
      (db, RouteResult.forbidden) := by
  refine ⟨?_, ?_, ?_⟩ <;>
    simp [users_create_route, users_role_route, users_resetpw_route,
      require_role, h]

/-- Witness for C5 at a concrete non-admin session. -/
theorem c5_user_mgmt_admin_only_witness :
    workerU.role ≠ "admin" ∧
    (users_create_route (fun s => s) (some workerU) "a@b.c" "A" "pw"
        "worker" 5 2 dbEx = (dbEx, RouteResult.forbidden) ∧
     users_role_route (some workerU) 1 "worker" 5 dbEx =
       (dbEx, RouteResult.forbidden) ∧
     users_resetpw_route (fun s => s) (some workerU) 1 "pw" 5 dbEx =
       (dbEx, RouteResult.forbidden)) :=
  ⟨by decide,
   c5_user_mgmt_admin_only (fun s => s) workerU "a@b.c" "A" "pw" "worker"
     1 5 2 dbEx (by decide)⟩

/-- Counterexample to claim C4 as stated: a logged-in user whose role
is worker, not admin, successfully runs the CSV import — the handler
commits (one audit row is appended) and answers with the redirect to
the index page — and the CSV export likewise runs for them rather than
being rejected. -/
theorem c4_counterexample_worker_can_import_export :
    (upload_route pdEx pfEx (some workerU) [rowEx] 5 2 dbEx).2 =
      RouteResult.done "index" ∧
    (upload_route pdEx pfEx (some workerU) [rowEx] 5 2 dbEx).1.audit_logs.length
      = dbEx.audit_logs.length + 1 ∧
    (export_route (fun _ => "") (some workerU) dbEx).2 ≠
      RouteResult.forbidden := by
  refine ⟨by decide, by decide, by decide⟩

/-- Claim C4 (amended): CSV import (upload) and CSV export (export_csv)
require only a login, not the admin role: in the source neither route
carries the require_role("admin") decorator, so every logged-in user —
whatever their role — can perform them, while anonymous requests are
redirected to the login page. -/
theorem c4_upload_export_need_only_login (pd : String → Option Nat)
    (pf : String → Option Rat) (fmt : Nat → String)
    (sess : SessionUser) (rows : List Row) (now nid : Nat) (db : DB) :
    (∃ x, (upload_route pd pf (some sess) rows now nid db).2 =
      RouteResult.done x) ∧
    (∃ y, (export_route fmt (some sess) db).2 = RouteResult.done y) ∧
    upload_route pd pf none rows now nid db =
      (db, RouteResult.redirectLogin) ∧
    export_route fmt none db = (db, RouteResult.redirectLogin) := by
  refine ⟨⟨"index", rfl⟩, ⟨_, rfl⟩, rfl, rfl⟩

/-- Claim C9: the deleted count returned by a successful bulk_delete
equals the number of integer ids parsed from the request's ids string,
not the number of rows actually removed: ids that match no existing
withdrawal are silently skipped yet still counted (exactly the rows
whose id is in the parsed list are removed and archived), so the
reported count can exceed the number of records deleted and archived —
the final conjunct exhibits a call reporting deleted=2 while archiving
a single record. -/
theorem c9_deleted_count_is_parsed_ids (sess : SessionUser) (ids : String)
    (now : Nat) (db : DB) (hne : parseIds ids ≠ [])
    (hrole : sess.role = "admin") :
    (bulk_delete_route (some sess) ids now db).2 =
      RouteResult.done
        { ok := true, deleted := some (parseIds ids).length, msg := none } ∧
    (bulk_delete_route (some sess) ids now db).1.archived.length =
      db.archived.length +
        (db.withdrawals.filter
          (fun w => (parseIds ids).contains w.id)).length ∧
    (bulk_delete_route (some sess) ids now db).1.withdrawals =
      db.withdrawals.filter (fun w => !(parseIds ids).contains w.id) ∧
    (∃ sess2 ids2 now2 db2, sess2.role = "admin" ∧
      (bulk_delete_route (some sess2) ids2 now2 db2).2 =
        RouteResult.done { ok := true, deleted := some 2, msg := none } ∧
      (bulk_delete_route (some sess2) ids2 now2 db2).1.archived.length =
        db2.archived.length + 1) := by
  have hfalse : (parseIds ids).isEmpty = false := by
    cases h : parseIds ids with
    | nil => exact absurd h hne
    | cons a as => rfl
  refine ⟨?_, ?_, ?_, ⟨adminU, "1, 2", 5, dbEx, rfl, by decide, by decide⟩⟩
  · simp [bulk_delete_route, require_role, hrole, bulk_delete_body, hfalse]
  · simp [bulk_delete_route, require_role, hrole, bulk_delete_body, hfalse]
  · simp [bulk_delete_route, require_role, hrole, bulk_delete_body, hfalse]

/-- Witness for C9 at a concrete call: ids "7, 1" parses to two ids of
which only id 1 exists in the single-row database. -/
theorem c9_deleted_count_is_parsed_ids_witness :
    parseIds "7, 1" ≠ [] ∧ adminU.role = "admin" ∧
    ((bulk_delete_route (some adminU) "7, 1" 5 dbEx).2 =
      RouteResult.done
        { ok := true, deleted := some (parseIds "7, 1").length, msg := none } ∧
    (bulk_delete_route (some adminU) "7, 1" 5 dbEx).1.archived.length =
      dbEx.archived.length +
        (dbEx.withdrawals.filter
          (fun w => (parseIds "7, 1").contains w.id)).length ∧
    (bulk_delete_route (some adminU) "7, 1" 5 dbEx).1.withdrawals =
      dbEx.withdrawals.filter
        (fun w => !(parseIds "7, 1").contains w.id) ∧
    (∃ sess2 ids2 now2 db2, sess2.role = "admin" ∧
      (bulk_delete_route (some sess2) ids2 now2 db2).2 =
        RouteResult.done { ok := true, deleted := some 2, msg := none } ∧
      (bulk_delete_route (some sess2) ids2 now2 db2).1.archived.length =
        db2.archived.length + 1)) :=
  ⟨by decide, rfl,
   c9_deleted_count_is_parsed_ids adminU "7, 1" 5 dbEx (by decide) rfl⟩

/-- Claim C1: for every withdrawal record whose id is listed in a
bulk_delete request and exists in the withdrawals table, one archive
row is inserted whose original_id equals the record's id and whose data
fields all equal the deleted record's fields, with deleted_by set to
the caller's email; the archive inserts and the row deletions are
committed together in one transaction — the returned state
simultaneously carries exactly the archive rows of all matched records
appended to the archive table and the withdrawals table with exactly
those records removed. -/
theorem c1_bulk_delete_archives_and_deletes (sess : SessionUser)
    (ids : String) (now : Nat) (db : DB) (w : Withdrawal)
    (hrole : sess.role = "admin") (hw : w ∈ db.withdrawals)
    (hid : w.id ∈ parseIds ids) :
    (∃ a ∈ (bulk_delete_route (some sess) ids now db).1.archived,
       a.original_id = w.id ∧ a.company = w.company ∧ a.no = w.no ∧
       a.applied_at = w.applied_at ∧ a.bank_name = w.bank_name ∧
       a.branch_name = w.branch_name ∧ a.account_type = w.account_type ∧
       a.account_number = w.account_number ∧
       a.account_holder = w.account_holder ∧ a.amount = w.amount ∧
       a.payout_account = w.payout_account ∧ a.fee = w.fee ∧
       a.status = w.status ∧ a.owner = w.owner ∧ a.memo = w.memo ∧
       a.created_at = w.created_at ∧ a.updated_at = w.updated_at ∧
       a.last_changed_by = w.last_changed_by ∧
       a.last_changed_at = w.last_changed_at ∧
       a.deleted_by = sess.email) ∧
    (bulk_delete_route (some sess) ids now db).1.archived =
      db.archived ++
        (db.withdrawals.filter (fun r => (parseIds ids).contains r.id)).map
          (fun r => archiveOf r now sess.email) ∧
    (bulk_delete_route (some sess) ids now db).1.withdrawals =
      db.withdrawals.filter (fun r => !(parseIds ids).contains r.id) := by
  have hfalse : (parseIds ids).isEmpty = false := by
    cases h : parseIds ids with
    | nil => rw [h] at hid; exact absurd hid (List.not_mem_nil _)
    | cons a as => rfl
  have harch : (bulk_delete_route (some sess) ids now db).1.archived =
      db.archived ++
        (db.withdrawals.filter (fun r => (parseIds ids).contains r.id)).map
          (fun r => archiveOf r now sess.email) := by
    simp [bulk_delete_route, require_role, hrole, bulk_delete_body, hfalse]
  refine ⟨⟨archiveOf w now sess.email, ?_, ?_⟩, harch, ?_⟩
  · rw [harch]
    refine List.mem_append_right _ (List.mem_map.mpr ⟨w, ?_, rfl⟩)
    exact List.mem_filter.mpr ⟨hw, by simpa using hid⟩
  · simp [archiveOf]
  · simp [bulk_delete_route, require_role, hrole, bulk_delete_body, hfalse]

/-- Witness for C1 at a concrete call: record id 1 is listed and
exists, its full copy lands in the archive and the row is removed. -/
theorem c1_bulk_delete_archives_and_deletes_witness :
    adminU.role = "admin" ∧ wEx ∈ dbEx.withdrawals ∧
    wEx.id ∈ parseIds "1" ∧
    ((∃ a ∈ (bulk_delete_route (some adminU) "1" 5 dbEx).1.archived,
       a.original_id = wEx.id ∧ a.company = wEx.company ∧ a.no = wEx.no ∧
       a.applied_at = wEx.applied_at ∧ a.bank_name = wEx.bank_name ∧
       a.branch_name = wEx.branch_name ∧
       a.account_type = wEx.account_type ∧
       a.account_number = wEx.account_number ∧
       a.account_holder = wEx.account_holder ∧ a.amount = wEx.amount ∧
       a.payout_account = wEx.payout_account ∧ a.fee = wEx.fee ∧
       a.status = wEx.status ∧ a.owner = wEx.owner ∧ a.memo = wEx.memo ∧
       a.created_at = wEx.created_at ∧ a.updated_at = wEx.updated_at ∧
       a.last_changed_by = wEx.last_changed_by ∧
       a.last_changed_at = wEx.last_changed_at ∧
       a.deleted_by = adminU.email) ∧
    (bulk_delete_route (some adminU) "1" 5 dbEx).1.archived =
      dbEx.archived ++
        (dbEx.withdrawals.filter (fun r => (parseIds "1").contains r.id)).map
          (fun r => archiveOf r 5 adminU.email) ∧
    (bulk_delete_route (some adminU) "1" 5 dbEx).1.withdrawals =
      dbEx.withdrawals.filter (fun r => !(parseIds "1").contains r.id)) :=
  ⟨rfl, by decide, by decide,
   c1_bulk_delete_archives_and_deletes adminU "1" 5 dbEx wEx rfl
     (by decide) (by decide)⟩

/-- Every list is its own longest suffix. -/
theorem self_mem_suffixes (cs : List Char) : cs ∈ suffixes cs := by
  cases cs <;> simp [suffixes]

/-- Dropping a prefix yields a member of `suffixes`. -/
theorem suffix_mem_suffixes (l1 rest : List Char) :
    rest ∈ suffixes (l1 ++ rest) := by
  induction l1 with
  | nil => simpa using self_mem_suffixes rest
  | cons c l1 ih =>
    simp only [List.cons_append, suffixes]
    exact List.mem_cons_of_mem _ ih

/-- The empty list is a suffix of every list. -/
theorem nil_mem_suffixes (cs : List Char) : [] ∈ suffixes cs := by
  induction cs with
  | nil => simp [suffixes]
  | cons c cs ih =>
    simp only [suffixes]
    exact List.mem_cons_of_mem _ ih

/-- A lone `%` pattern matches every string. -/
theorem likeMatchL_percent_all (cs : List Char) :
    likeMatchL ['%'] cs = true := by
  show (suffixes cs).any (fun cs2 => likeMatchL [] cs2) = true
  rw [List.any_eq_true]
  exact ⟨[], nil_mem_suffixes cs, by simp [likeMatchL]⟩

/-- A pattern extended on the left by literal text matches a string
extended by the same text: wildcards generalise their own literal
occurrence (`%` may match the one-character sequence `%`, `_` matches
`_`), and equal characters are equal after lower-casing. -/
theorem likeMatchL_lit (q ps cs : List Char)
    (h : likeMatchL ps cs = true) :
    likeMatchL (q ++ ps) (q ++ cs) = true := by
  induction q with
  | nil => simpa using h
  | cons p q ih =>
    by_cases hp : p = '%'
    · subst hp
      show (suffixes ('%' :: (q ++ cs))).any
          (fun cs2 => likeMatchL (q ++ ps) cs2) = true
      rw [List.any_eq_true]
      refine ⟨q ++ cs, ?_, ih⟩
      simp only [suffixes]
      exact List.mem_cons_of_mem _ (self_mem_suffixes (q ++ cs))
    · show likeMatchL (p :: (q ++ ps)) (p :: (q ++ cs)) = true
      simp only [likeMatchL, if_neg hp, Bool.and_eq_true]
      refine ⟨?_, ih⟩
      by_cases hu : p = '_' <;> simp [hu]

/-- A literal substring occurrence splits the string around the
needle. -/
theorem strOccursL_split (q : List Char) : ∀ s : List Char,
    strOccursL q s = true → ∃ l1 l2, s = l1 ++ (q ++ l2) := by
  intro s
  induction s with
  | nil =>
    intro h
    simp only [strOccursL, List.isEmpty_iff] at h
    exact ⟨[], [], by simp [h]⟩
  | cons c rest ih =>
    intro h
    simp only [strOccursL, Bool.or_eq_true] at h
    rcases h with h | h
    · obtain ⟨t, ht⟩ := List.isPrefixOf_iff_prefix.mp h
      exact ⟨[], t, by simp [← ht]⟩
    · obtain ⟨l1, l2, hs⟩ := ih h
      exact ⟨c :: l1, l2, by simp [hs]⟩

/-- Every literal substring occurrence of the query is kept by the
engine's LIKE match: `%q%` LIKE-matching is implied by (though, per
the C7 counterexample, not equivalent to) substring occurrence. -/
theorem strOccurs_implies_sqlLike (q s : String)
    (h : strOccurs q s = true) :
    sqlLike ("%" ++ q ++ "%") s = true := by
  obtain ⟨l1, l2, hs⟩ := strOccursL_split q.toList s.toList h
  unfold sqlLike
  have hpat : ("%" ++ q ++ "%").toList = '%' :: (q.toList ++ ['%']) := by
    show ("%" ++ q ++ "%").data = '%' :: (q.data ++ ['%'])
    rw [String.data_append, String.data_append]
    rfl
  rw [hpat, hs]
  show (suffixes (l1 ++ (q.toList ++ l2))).any
      (fun cs2 => likeMatchL (q.toList ++ ['%']) cs2) = true
  rw [List.any_eq_true]
  refine ⟨q.toList ++ l2, suffix_mem_suffixes l1 _, ?_⟩
  exact likeMatchL_lit q.toList ['%'] l2 (likeMatchL_percent_all l2)

/-- A LIKE filter on a nullable column succeeds exactly on non-null
values the pattern matches. -/
theorem likeOpt_iff (q : String) (v : Option String) :
    likeOpt q v = true ↔
      ∃ s, v = some s ∧ sqlLike ("%" ++ q ++ "%") s = true := by
  cases v <;> simp [likeOpt]

/-- Unconditional unfolding of the index filter predicate: each filter
constrains the row exactly when its argument is active, independently
of the other filters. -/
theorem index_pred_iff (q status owner : String)
    (start end_ : Option Nat) (w : Withdrawal) :
    index_pred q status owner start end_ w = true ↔
      ((q ≠ "" →
         ((∃ s, w.company = some s ∧
             sqlLike ("%" ++ q ++ "%") s = true) ∨
          (∃ s, w.no = some s ∧ sqlLike ("%" ++ q ++ "%") s = true) ∨
          (∃ s, w.bank_name = some s ∧
             sqlLike ("%" ++ q ++ "%") s = true) ∨
          (∃ s, w.branch_name = some s ∧
             sqlLike ("%" ++ q ++ "%") s = true) ∨
          (∃ s, w.account_holder = some s ∧
             sqlLike ("%" ++ q ++ "%") s = true) ∨
          (∃ s, w.payout_account = some s ∧
             sqlLike ("%" ++ q ++ "%") s = true) ∨
          (∃ s, w.owner = some s ∧
             sqlLike ("%" ++ q ++ "%") s = true))) ∧
       (status ≠ "" → w.status = some status) ∧
       (owner ≠ "" → w.owner = some owner) ∧
       (∀ ts, start = some ts → ∃ a, w.applied_at = some a ∧ ts ≤ a) ∧
       (∀ te, end_ = some te → ∃ a, w.applied_at = some a ∧ a < te)) := by
  have hq : ((q == "") || matchesQ q w) = true ↔
      (q ≠ "" →
        ((∃ s, w.company = some s ∧ sqlLike ("%" ++ q ++ "%") s = true) ∨
         (∃ s, w.no = some s ∧ sqlLike ("%" ++ q ++ "%") s = true) ∨
         (∃ s, w.bank_name = some s ∧
            sqlLike ("%" ++ q ++ "%") s = true) ∨
         (∃ s, w.branch_name = some s ∧
            sqlLike ("%" ++ q ++ "%") s = true) ∨
         (∃ s, w.account_holder = some s ∧
            sqlLike ("%" ++ q ++ "%") s = true) ∨
         (∃ s, w.payout_account = some s ∧
            sqlLike ("%" ++ q ++ "%") s = true) ∨
         (∃ s, w.owner = some s ∧
            sqlLike ("%" ++ q ++ "%") s = true))) := by
    rcases eq_or_ne q "" with rfl | hne
    · simp
    · simp [hne, matchesQ, likeOpt_iff, or_assoc]
  have hst : ((status == "") || (w.status == some status)) = true ↔
      (status ≠ "" → w.status = some status) := by
    rcases eq_or_ne status "" with rfl | hne
    · simp
    · simp [hne]
  have how : ((owner == "") || (w.owner == some owner)) = true ↔
      (owner ≠ "" → w.owner = some owner) := by
    rcases eq_or_ne owner "" with rfl | hne
    · simp
    · simp [hne]
  have hd1 : (match start with
      | none => true
      | some s => match w.applied_at with
        | none => false
        | some a => decide (s ≤ a)) = true ↔
      (∀ ts, start = some ts → ∃ a, w.applied_at = some a ∧ ts ≤ a) := by
    cases start with
    | none => simp
    | some ts =>
      cases hA : w.applied_at with
      | none => simp [hA]
      | some a => simp [hA]
  have hd2 : (match end_ with
      | none => true
      | some e => match w.applied_at with
        | none => false
        | some a => decide (a < e)) = true ↔
      (∀ te, end_ = some te → ∃ a, w.applied_at = some a ∧ a < te) := by
    cases end_ with
    | none => simp
    | some te =>
      cases hA : w.applied_at with
      | none => simp [hA]
      | some a => simp [hA]
  simp only [index_pred, Bool.and_eq_true]
  rw [hq, hst, how, hd1, hd2]
  simp only [and_assoc]

/-- Counterexample to claim C7 as stated: with the free-text query
"acme" and no other filter active, the view keeps the record whose
company is "ACME" — the engine's LIKE compares ASCII letters
case-insensitively — although "acme" occurs as a literal substring of
none of the record's seven searched fields. -/
theorem c7_counterexample_like_beyond_substring :
    wEx ∈ index_rows pdEx (some "acme") none none none none dbEx ∧
    matchesQSubstr "acme" wEx = false := by
  refine ⟨by decide, by decide⟩

/-- Claim C7 (amended): the list view's filtering applies each filter
independently, exactly when that filter's argument is non-empty — a
record is kept iff it passes every active filter, where the free-text
query keeps the records in which the SQL pattern %q% LIKE-matches at
least one of company, no, bank_name, branch_name, account_holder,
payout_account or owner (LIKE treats % and _ in q as wildcards and
compares ASCII letters case-insensitively, so it is implied by, but
not equivalent to, literal substring occurrence — the second conjunct
below), a non-empty status filter keeps exactly the records whose
status equals it, a non-empty owner filter keeps exactly the records
whose owner equals it, and a parsed start/end date keeps exactly the
records with applied_at ≥ start and applied_at < end respectively. -/
theorem c7_index_filtering (pd : String → Option Nat)
    (qArg statusArg ownerArg startArg endArg : Option String) (db : DB)
    (w : Withdrawal) :
    (w ∈ index_rows pd qArg statusArg ownerArg startArg endArg db ↔
      (w ∈ db.withdrawals ∧
       ((pyStrip (pyOrS qArg "") ≠ "" →
          ((∃ s, w.company = some s ∧
              sqlLike ("%" ++ pyStrip (pyOrS qArg "") ++ "%") s = true) ∨
           (∃ s, w.no = some s ∧
              sqlLike ("%" ++ pyStrip (pyOrS qArg "") ++ "%") s = true) ∨
           (∃ s, w.bank_name = some s ∧
              sqlLike ("%" ++ pyStrip (pyOrS qArg "") ++ "%") s = true) ∨
           (∃ s, w.branch_name = some s ∧
              sqlLike ("%" ++ pyStrip (pyOrS qArg "") ++ "%") s = true) ∨
           (∃ s, w.account_holder = some s ∧
              sqlLike ("%" ++ pyStrip (pyOrS qArg "") ++ "%") s = true) ∨
           (∃ s, w.payout_account = some s ∧
              sqlLike ("%" ++ pyStrip (pyOrS qArg "") ++ "%") s = true) ∨
           (∃ s, w.owner = some s ∧
              sqlLike ("%" ++ pyStrip (pyOrS qArg "") ++ "%") s = true))) ∧
        (pyOrS statusArg "" ≠ "" →
          w.status = some (pyOrS statusArg "")) ∧
        (pyOrS ownerArg "" ≠ "" → w.owner = some (pyOrS ownerArg "")) ∧
        (∀ ts, parse_dt pd startArg = some ts →
          ∃ a, w.applied_at = some a ∧ ts ≤ a) ∧
        (∀ te, parse_dt pd endArg = some te →
          ∃ a, w.applied_at = some a ∧ a < te)))) ∧
    (∀ s2, strOccurs (pyStrip (pyOrS qArg "")) s2 = true →
      sqlLike ("%" ++ pyStrip (pyOrS qArg "") ++ "%") s2 = true) := by
  constructor
  · unfold index_rows
    rw [List.mem_filter]
    exact and_congr_right (fun _ =>
      index_pred_iff (pyStrip (pyOrS qArg "")) (pyOrS statusArg "")
        (pyOrS ownerArg "") (parse_dt pd startArg) (parse_dt pd endArg) w)
  · intro s2 h2
    exact strOccurs_implies_sqlLike (pyStrip (pyOrS qArg "")) s2 h2

/-- Python `a or b` returns `a` when `a` is a truthy string. -/
theorem pyOrS_of_truthy (s b : String) (h : s ≠ "") :
    pyOrS (some s) b = s := by
  simp [pyOrS, h]

/-- Python `a or b` falls through to `b` when `a` is `None` or `""`. -/
theorem pyOrS_of_falsy (a : Option String) (b : String)
    (h : a.getD "" = "") : pyOrS a b = b := by
  cases a with
  | none => rfl
  | some s =>
    simp only [Option.getD_some] at h
    simp [pyOrS, h]

/-- A blank or missing cell is coerced to a null number. -/
theorem parse_float_none_of_blank (pf : String → Option Rat)
    (x : Option String) (h : pyStrip (x.getD "") = "") :
    parse_float pf x = none := by
  cases x with
  | none => rfl
  | some s =>
    simp only [Option.getD_some] at h
    simp [parse_float, h]

/-- A cell rejected by float() is coerced to a null number. -/
theorem parse_float_none_of_fail (pf : String → Option Rat) (s : String)
    (h : pf (removeCommas s) = none) : parse_float pf (some s) = none := by
  by_cases hb : pyStrip s = "" <;> simp [parse_float, hb, h]

/-- A falsy or missing cell is coerced to a null date. -/
theorem parse_dt_none_of_blank (pd : String → Option Nat)
    (x : Option String) (h : x.getD "" = "") : parse_dt pd x = none := by
  cases x with
  | none => rfl
  | some s =>
    simp only [Option.getD_some] at h
    simp [parse_dt, h]

/-- A cell rejected by dateutil is coerced to a null date. -/
theorem parse_dt_none_of_fail (pd : String → Option Nat) (s : String)
    (h : pd s = none) : parse_dt pd (some s) = none := by
  by_cases hb : s = "" <;> simp [parse_dt, hb, h]

/-- Claim C6: during CSV import, for every non-blank row the record
written carries company read from the 会社 column falling back to
クライアント, the record number from No. falling back to No, the owner
from 担当者 falling back to 担当 (each stripped), the amount and fee
coerced through parse_float (commas removed first), and the applied
date through parse_dt, with any value that is empty or fails to coerce
stored as null; the fold never aborts since every branch is total. -/
theorem c6_csv_row_parsing (pd : String → Option Nat)
    (pf : String → Option Rat) (now : Nat) (st : List Withdrawal × Nat)
    (row : Row) (h : blankRow row = false) :
    ∃ w2 ∈ (processRow pd pf now st row).1,
      (∀ s, rowGet row "会社" = some s → s ≠ "" →
        w2.company = some (pyStrip s)) ∧
      ((rowGet row "会社").getD "" = "" →
        ∀ s, rowGet row "クライアント" = some s → s ≠ "" →
          w2.company = some (pyStrip s)) ∧
      ((rowGet row "会社").getD "" = "" →
        (rowGet row "クライアント").getD "" = "" → w2.company = some "") ∧
      (∀ s, rowGet row "No." = some s → s ≠ "" →
        w2.no = some (pyStrip s)) ∧
      ((rowGet row "No.").getD "" = "" →
        ∀ s, rowGet row "No" = some s → s ≠ "" →
          w2.no = some (pyStrip s)) ∧
      (∀ s, rowGet row "担当者" = some s → s ≠ "" →
        w2.owner = some (pyStrip s)) ∧
      ((rowGet row "担当者").getD "" = "" →
        ∀ s, rowGet row "担当" = some s → s ≠ "" →
          w2.owner = some (pyStrip s)) ∧
      w2.amount = parse_float pf (rowGet row "金額") ∧
      w2.fee = parse_float pf (rowGet row "手数料") ∧
      w2.applied_at = parse_dt pd (rowGet row "申請日時") ∧
      (pyStrip ((rowGet row "金額").getD "") = "" → w2.amount = none) ∧
      (∀ s, rowGet row "金額" = some s → pf (removeCommas s) = none →
        w2.amount = none) ∧
      (pyStrip ((rowGet row "手数料").getD "") = "" → w2.fee = none) ∧
      (∀ s, rowGet row "手数料" = some s → pf (removeCommas s) = none →
        w2.fee = none) ∧
      ((rowGet row "申請日時").getD "" = "" → w2.applied_at = none) ∧
      (∀ s, rowGet row "申請日時" = some s → pd s = none →
        w2.applied_at = none) := by
  obtain ⟨base, hbase, hmem⟩ := processRow_touched pd pf now st row h
  refine ⟨applyRow pd pf now row base, hmem, ?_, ?_, ?_, ?_, ?_, ?_, ?_,
    rfl, rfl, rfl, ?_, ?_, ?_, ?_, ?_, ?_⟩
  · intro s hsome hne
    show some (pyStrip (pyOrS (rowGet row "会社") _)) = _
    rw [hsome, pyOrS_of_truthy s _ hne]
  · intro hA s hsome hne
    show some (pyStrip (pyOrS (rowGet row "会社") _)) = _
    rw [pyOrS_of_falsy _ _ hA, hsome, pyOrS_of_truthy s _ hne]
  · intro hA hB
    show some (pyStrip (pyOrS (rowGet row "会社") _)) = _
    rw [pyOrS_of_falsy _ _ hA, pyOrS_of_falsy _ _ hB]
    rfl
  · intro s hsome hne
    show base.no = _
    rw [hbase]
    unfold rowNo
    rw [hsome, pyOrS_of_truthy s _ hne]
  · intro hA s hsome hne
    show base.no = _
    rw [hbase]
    unfold rowNo
    rw [pyOrS_of_falsy _ _ hA, hsome, pyOrS_of_truthy s _ hne]
  · intro s hsome hne
    show some (pyStrip (pyOrS (rowGet row "担当者") _)) = _
    rw [hsome, pyOrS_of_truthy s _ hne]
  · intro hA s hsome hne
    show some (pyStrip (pyOrS (rowGet row "担当者") _)) = _
    rw [pyOrS_of_falsy _ _ hA, hsome, pyOrS_of_truthy s _ hne]
  · intro hblank
    exact parse_float_none_of_blank pf _ hblank
  · intro s hsome hfail
    show parse_float pf (rowGet row "金額") = none
    rw [hsome]
    exact parse_float_none_of_fail pf s hfail
  · intro hblank
    exact parse_float_none_of_blank pf _ hblank
  · intro s hsome hfail
    show parse_float pf (rowGet row "手数料") = none
    rw [hsome]
    exact parse_float_none_of_fail pf s hfail
  · intro hblank
    exact parse_dt_none_of_blank pd _ hblank
  · intro s hsome hfail
    show parse_dt pd (rowGet row "申請日時") = none
    rw [hsome]
    exact parse_dt_none_of_fail pd s hfail

/-- Witness for C6 at the concrete row `rowEx` against an empty
table. -/
theorem c6_csv_row_parsing_witness :
    blankRow rowEx = false ∧
    (∃ w2 ∈ (processRow pdEx pfEx 5 ([], 1) rowEx).1,
      (∀ s, rowGet rowEx "会社" = some s → s ≠ "" →
        w2.company = some (pyStrip s)) ∧
      ((rowGet rowEx "会社").getD "" = "" →
        ∀ s, rowGet rowEx "クライアント" = some s → s ≠ "" →
          w2.company = some (pyStrip s)) ∧
      ((rowGet rowEx "会社").getD "" = "" →
        (rowGet rowEx "クライアント").getD "" = "" →
        w2.company = some "") ∧
      (∀ s, rowGet rowEx "No." = some s → s ≠ "" →
        w2.no = some (pyStrip s)) ∧
      ((rowGet rowEx "No.").getD "" = "" →
        ∀ s, rowGet rowEx "No" = some s → s ≠ "" →
          w2.no = some (pyStrip s)) ∧
      (∀ s, rowGet rowEx "担当者" = some s → s ≠ "" →
        w2.owner = some (pyStrip s)) ∧
      ((rowGet rowEx "担当者").getD "" = "" →
        ∀ s, rowGet rowEx "担当" = some s → s ≠ "" →
          w2.owner = some (pyStrip s)) ∧
      w2.amount = parse_float pfEx (rowGet rowEx "金額") ∧
      w2.fee = parse_float pfEx (rowGet rowEx "手数料") ∧
      w2.applied_at = parse_dt pdEx (rowGet rowEx "申請日時") ∧
      (pyStrip ((rowGet rowEx "金額").getD "") = "" → w2.amount = none) ∧
      (∀ s, rowGet rowEx "金額" = some s → pfEx (removeCommas s) = none →
        w2.amount = none) ∧
      (pyStrip ((rowGet rowEx "手数料").getD "") = "" → w2.fee = none) ∧
      (∀ s, rowGet rowEx "手数料" = some s →
        pfEx (removeCommas s) = none → w2.fee = none) ∧
      ((rowGet rowEx "申請日時").getD "" = "" → w2.applied_at = none) ∧
      (∀ s, rowGet rowEx "申請日時" = some s → pdEx s = none →
        w2.applied_at = none)) :=
  ⟨by decide, c6_csv_row_parsing pdEx pfEx 5 ([], 1) rowEx (by decide)⟩

/-- Claim C10: CSV import is an upsert keyed on the record number —
when a withdrawal with the imported row's No. value already exists, the
table splits around the first such record and exactly that position is
overwritten with the row's field assignments (whose status is the CSV's
ステータス value), the table length and the autoincrement counter are
unchanged (no duplicate row is created), and rows in which every cell
is blank are skipped entirely. -/
theorem c10_upload_upsert_by_no (pd : String → Option Nat)
    (pf : String → Option Rat) (now : Nat) (ws : List Withdrawal)
    (nid : Nat) (row : Row) (w0 : Withdrawal)
    (hb : blankRow row = false)
    (hf : ws.find? (fun w => w.no == some (rowNo row)) = some w0) :
    (∃ l1 l2, ws = l1 ++ w0 :: l2 ∧
       (∀ y ∈ l1, (y.no == some (rowNo row)) = false) ∧
       (processRow pd pf now (ws, nid) row).1 =
         l1 ++ applyRow pd pf now row w0 :: l2) ∧
    (processRow pd pf now (ws, nid) row).1.length = ws.length ∧
    (processRow pd pf now (ws, nid) row).2 = nid ∧
    (applyRow pd pf now row w0).status =
      some (pyStrip (pyOrS (rowGet row "ステータス") "")) ∧
    (∀ row2 st, blankRow row2 = true →
      processRow pd pf now st row2 = st) := by
  have hpr : processRow pd pf now (ws, nid) row =
      (replaceFirst (fun w => w.no == some (rowNo row))
        (fun _ => applyRow pd pf now row w0) ws, nid) := by
    unfold processRow
    rw [hb]
    simp only [Bool.false_eq_true, if_false]
    rw [hf]
  obtain ⟨l1, l2, hsplit, hmiss, hrep⟩ :=
    replaceFirst_split (fun w => w.no == some (rowNo row))
      (fun _ => applyRow pd pf now row w0) ws w0 hf
  refine ⟨⟨l1, l2, hsplit, hmiss, ?_⟩, ?_, ?_, rfl, ?_⟩
  · rw [hpr]
    exact hrep
  · rw [hpr]
    show (replaceFirst _ _ ws).length = ws.length
    rw [hrep, hsplit]
    simp
  · rw [hpr]
  · intro row2 st hb2
    unfold processRow
    rw [hb2]
    rfl

/-- Concrete existing record whose No. is 7, target of the C10
witness upsert. -/
def wNo7 : Withdrawal :=
  { wEx with id := 3, no := some "7", status := some "完了" }

/-- Concrete CSV row keyed No. 7 used by the C10 witness. -/
def row7 : Row :=
  [("No.", some " 7 "), ("会社", some "X"), ("ステータス", some "差し戻し")]

/-- Witness for C10 at a concrete table holding a record with No. 7 and
a CSV row carrying the same number. -/
theorem c10_upload_upsert_by_no_witness :
    blankRow row7 = false ∧
    [wNo7].find? (fun w => w.no == some (rowNo row7)) = some wNo7 ∧
    ((∃ l1 l2, [wNo7] = l1 ++ wNo7 :: l2 ∧
       (∀ y ∈ l1, (y.no == some (rowNo row7)) = false) ∧
       (processRow pdEx pfEx 5 ([wNo7], 4) row7).1 =
         l1 ++ applyRow pdEx pfEx 5 row7 wNo7 :: l2) ∧
    (processRow pdEx pfEx 5 ([wNo7], 4) row7).1.length = [wNo7].length ∧
    (processRow pdEx pfEx 5 ([wNo7], 4) row7).2 = 4 ∧
    (applyRow pdEx pfEx 5 row7 wNo7).status =
      some (pyStrip (pyOrS (rowGet row7 "ステータス") "")) ∧
    (∀ row2 st, blankRow row2 = true →
      processRow pdEx pfEx 5 st row2 = st)) :=
  ⟨by decide, by decide,
   c10_upload_upsert_by_no pdEx pfEx 5 [wNo7] 4 row7 wNo7 (by decide)
     (by decide)⟩

end WithdrawalApp
